import Mathlib

/-!
# Verification of the gemini_cli routing / sticky-session / retry logic

Shallow embedding of the repository's core logic:

* `tui.py` — `route_logic` (delegated classifier with fallback), the
  retry loop inside `GeminiTui.process_user_request`, the sticky binding
  held in `current_worker` / `current_model_name`, `action_new_session`
  (reset) and `on_input_submitted` (blank-input guard).
* `app.py` — the length-100 heuristic `route_logic`.
* `main.py` — the length-20 heuristic `route_logic`.

External collaborators (the genai transport, the Textual widgets) are
modelled as oracles: the picker's response text is an `Option String`
(`none` = the auxiliary call raised), and the transport is a function
from the 0-based attempt index to an outcome.  Python string operations
(`in`, `.strip()`, `.upper()`) are modelled on the character list of the
string (ASCII; the tokens involved are ASCII).
-/

/-- Python's substring test `needle in hay`, on character lists:
true iff `needle` occurs contiguously in `hay`. -/
def listContainsSub (needle : List Char) : List Char → Bool
  | [] => needle.isEmpty
  | c :: t => needle.isPrefixOf (c :: t) || listContainsSub needle t

/-- Python's `needle in hay` on strings. -/
def strContains (hay needle : String) : Bool :=
  listContainsSub needle.data hay.data

/-- The whitespace characters stripped by Python's `str.strip()`
(ASCII fragment). -/
def isPyWhitespace (c : Char) : Bool :=
  c = ' ' || c = '\t' || c = '\n' || c = '\r' || c = '\x0b' || c = '\x0c'

/-- Python's `str.strip()`: drop leading and trailing whitespace. -/
def pyStrip (s : String) : String :=
  String.mk (((s.data.dropWhile isPyWhitespace).reverse.dropWhile isPyWhitespace).reverse)

/-- Python's `str.upper()` (ASCII fragment, as in `Char.toUpper`). -/
def pyUpper (s : String) : String :=
  String.mk (s.data.map Char.toUpper)

namespace Tui

/-- The two backend capability classes: `FlashImplementation` (light)
and `HighReasoningImplementation` (heavy) in `tui.py`. -/
inductive Tier
  | light
  | heavy
deriving DecidableEq, Repr

/-- The model-name configuration of `tui.py`'s `AppSettings`
(the secret key is irrelevant to routing). -/
structure AppSettings where
  heavy_model : String
  light_model : String
  picker_model : String
deriving DecidableEq, Repr

/-- A worker as produced by `route_logic`: which implementation class was
instantiated and the `_model_name` it carries.  The lazily created
`_chat_session` context handle lives exactly as long as this object, so
worker identity stands for context identity. -/
structure Worker where
  tier : Tier
  model_name : String
deriving DecidableEq, Repr

/-- `decision` as computed in `tui.py` lines 83-87:
`response.text.strip().upper()` on success of the auxiliary call,
the literal `"HEAVY"` when the call raised (`none`). -/
def routeDecision (pickerResponse : Option String) : String :=
  match pickerResponse with
  | some t => pyUpper (pyStrip t)
  | none => "HEAVY"

/-- `route_logic` of `tui.py` (lines 69-93).  The auxiliary remote call is
abstracted by `pickerResponse : Option String` (`none` = it raised).
Returns the instantiated worker and the model name, exactly as the
Python `tuple[LLMInterface, str]`. -/
def route_logic (settings : AppSettings) (pickerResponse : Option String) :
    Worker × String :=
  let decision := routeDecision pickerResponse
  if strContains decision "HEAVY" then
    ({ tier := .heavy, model_name := settings.heavy_model }, settings.heavy_model)
  else
    ({ tier := .light, model_name := settings.light_model }, settings.light_model)

/-- Outcome of one `worker.process_task(prompt)` transport attempt:
either the response text or the message of the raised exception. -/
inductive TaskOutcome
  | ok (text : String)
  | err (msg : String)
deriving DecidableEq, Repr

/-- An attempt outcome is TRANSIENT when it is an error whose message
contains `"503"` — the exact test `"503" in error_str` of `tui.py`
line 213. -/
def isTransientOutcome : TaskOutcome → Bool
  | .ok _ => false
  | .err m => strContains m "503"

/-- How the retry loop of `tui.py` lines 206-226 ends. -/
inductive RetryResult
  | success (text : String)
  | raised (msg : String)
  | fellThrough
deriving DecidableEq, Repr

/-- Observable trace of one run of the retry loop: the final result, the
number of transport attempts made, the waits slept between attempts (in
order), and the progress messages written to the log — each carries the
0-based attempt index (rendered in Python as `attempt + 1` dots) and the
computed wait. -/
structure RetryTrace where
  result : RetryResult
  attempts : Nat
  delays : List Nat
  notes : List (Nat × Nat)
deriving DecidableEq, Repr

/-- One unrolling of `for attempt in range(max_retries)` from a given
`attempt` index, with `fuel = max_retries - attempt` iterations left.
Faithful to `tui.py` lines 206-226: a success breaks; an error whose
message contains `"503"` while `attempt < max_retries - 1` logs a
progress message, sleeps `base_delay * 2 ** attempt`, and continues;
any other error (or the last attempt) re-raises. -/
def retryStep (transport : Nat → TaskOutcome) (max_retries base_delay : Nat) :
    Nat → Nat → RetryTrace
  | _, 0 => ⟨.fellThrough, 0, [], []⟩
  | attempt, fuel + 1 =>
    match transport attempt with
    | .ok t => ⟨.success t, 1, [], []⟩
    | .err m =>
      if strContains m "503" = true ∧ attempt < max_retries - 1 then
        let wait_time := base_delay * 2 ^ attempt
        let rest := retryStep transport max_retries base_delay (attempt + 1) fuel
        ⟨rest.result, rest.attempts + 1, wait_time :: rest.delays,
          (attempt, wait_time) :: rest.notes⟩
      else
        ⟨.raised m, 1, [], []⟩

/-- The whole retry loop, started at `attempt = 0`.  `tui.py` runs it with
`max_retries = 5`, `base_delay = 1` and multiplier 2. -/
def retryExec (transport : Nat → TaskOutcome) (max_retries base_delay : Nat) :
    RetryTrace :=
  retryStep transport max_retries base_delay 0 max_retries

/-- Everything the surrounding code observes of one request's handling:
the messages written to the `RichLog`. -/
inductive Event
  | routing
  | routedTo (model : String)
  | retryNote (attempt wait : Nat)
  | output (text : String)
  | errorMsg (msg : String)
  | userEcho (text : String)
  | logCleared
  | sessionReset
deriving DecidableEq, Repr

/-- The sticky-session state of `GeminiTui`: `current_worker` and
`current_model_name` (both `None` on construction and after reset). -/
structure TuiState where
  current_worker : Option Worker
  current_model_name : Option String
deriving DecidableEq, Repr

/-- Observable outcome of `process_user_request` (or of
`on_input_submitted`): the state afterwards, the log events emitted, in
order, whether `route_logic` (the Classifier) was invoked, which worker
and model name handled the prompt (`none` when nothing was dispatched),
and how many transport attempts were made. -/
structure ProcessResult where
  state : TuiState
  events : List Event
  classifierInvoked : Bool
  usedWorker : Option Worker
  usedModel : Option String
  attempts : Nat
deriving DecidableEq, Repr

/-- `GeminiTui.process_user_request` (`tui.py` lines 180-236).  The
auxiliary classification response and the transport are oracles.  If
`current_worker is None`, it logs, invokes `route_logic`, and stores the
binding; otherwise it reuses the stored worker and model name.  Then the
retry loop runs (`max_retries = 5`, `base_delay = 1`); its success text
or error message is logged; the binding fields are not touched after
routing — in particular a failure leaves them as they are. -/
def process_user_request (settings : AppSettings) (pickerResponse : Option String)
    (transport : Nat → TaskOutcome) (st : TuiState) (_prompt : String) :
    ProcessResult :=
  let routed : Worker × Option String × List Event × Bool × TuiState :=
    match st.current_worker with
    | none =>
      let wm := route_logic settings pickerResponse
      (wm.1, some wm.2, [Event.routing, Event.routedTo wm.2], true,
        { current_worker := some wm.1, current_model_name := some wm.2 })
    | some w => (w, st.current_model_name, [], false, st)
  let trace := retryExec transport 5 1
  let retryEvents := trace.notes.map fun p => Event.retryNote p.1 p.2
  let outcomeEvents :=
    match trace.result with
    | .success t => [Event.output t]
    | .raised m => [Event.errorMsg m]
    | .fellThrough => [Event.output "None"]
  { state := routed.2.2.2.2
    events := routed.2.2.1 ++ retryEvents ++ outcomeEvents
    classifierInvoked := routed.2.2.2.1
    usedWorker := some routed.1
    usedModel := routed.2.1
    attempts := trace.attempts }

/-- `GeminiTui.action_new_session` (`tui.py` lines 252-267): clears the
log, sets `current_worker` and `current_model_name` back to `None`, and
logs the reset message.  The prior state is discarded entirely. -/
def action_new_session (_st : TuiState) : TuiState × List Event :=
  ({ current_worker := none, current_model_name := none },
    [Event.logCleared, Event.sessionReset])

/-- `GeminiTui.on_input_submitted` (`tui.py` lines 238-250): strips the
submitted value; a blank result returns at once — nothing is logged, no
routing and no transport happen, the state is untouched.  Otherwise the
user text is echoed and `process_user_request` runs on it. -/
def on_input_submitted (settings : AppSettings) (pickerResponse : Option String)
    (transport : Nat → TaskOutcome) (st : TuiState) (value : String) :
    ProcessResult :=
  let user_text := pyStrip value
  if user_text = "" then
    { state := st, events := [], classifierInvoked := false,
      usedWorker := none, usedModel := none, attempts := 0 }
  else
    let r := process_user_request settings pickerResponse transport st user_text
    { r with events := Event.userEcho user_text :: r.events }

end Tui

namespace AppPy

/-- The model-name configuration of `app.py`'s `AppSettings`. -/
structure AppSettings where
  heavy_model : String
  light_model : String
deriving DecidableEq, Repr

/-- `route_logic` of `app.py` (lines 49-52): prompts shorter than 100
characters go to `FlashImplementation(light_model)`, all others to
`HighReasoningImplementation(heavy_model)`. -/
def route_logic (user_input : String) (settings : AppSettings) :
    Tui.Worker × String :=
  if user_input.length < 100 then
    ({ tier := .light, model_name := settings.light_model }, "Gemini Flash (Fast)")
  else
    ({ tier := .heavy, model_name := settings.heavy_model }, "Gemini Pro (Reasoning)")

end AppPy

namespace MainPy

/-- The model-name configuration of `main.py`'s `AppSettings`. -/
structure AppSettings where
  heavy_model : String
  light_model : String
deriving DecidableEq, Repr

/-- `route_logic` of `main.py` (lines 57-64): prompts longer than 20
characters go to `HighReasoningImplementation(heavy_model)`, all others
to `FlashImplementation(light_model)`. -/
def route_logic (settings : AppSettings) (user_prompt : String) :
    Tui.Worker × String :=
  if user_prompt.length > 20 then
    ({ tier := .heavy, model_name := settings.heavy_model }, settings.heavy_model)
  else
    ({ tier := .light, model_name := settings.light_model }, settings.light_model)

end MainPy

/-- Index of the first occurrence of `needle` in a character list, if
any. -/
def firstOccurIdx (needle : List Char) : List Char → Option Nat
  | [] => if needle.isEmpty then some 0 else none
  | c :: t =>
    if needle.isPrefixOf (c :: t) then some 0
    else (firstOccurIdx needle t).map (· + 1)

/-- Modelled from the spec's words, for comparison with
`Tui.route_logic`: "the decision is the first token-class matched
case-insensitively in the response, defaulting to HEAVY if neither token
is found". -/
def specFirstTokenTier (resp : String) : Tui.Tier :=
  let u := pyUpper resp
  match firstOccurIdx "HEAVY".data u.data, firstOccurIdx "LIGHT".data u.data with
  | some i, some j => if i ≤ j then .heavy else .light
  | some _, none => .heavy
  | none, some _ => .light
  | none, none => .heavy

/-! ## Concrete inputs used by witnesses and counterexamples -/

/-- Transport stub: two transient (503) failures, then success "OK". -/
def transportTwoFail : Nat → Tui.TaskOutcome := fun i =>
  if i < 2 then Tui.TaskOutcome.err "503 Service Unavailable" else Tui.TaskOutcome.ok "OK"

/-- Transport stub: a fatal (non-503) failure on every attempt. -/
def transportFatal : Nat → Tui.TaskOutcome := fun _ =>
  Tui.TaskOutcome.err "401 Unauthorized"

/-- Transport stub: a transient (503) failure on every attempt. -/
def transportOverloaded : Nat → Tui.TaskOutcome := fun _ =>
  Tui.TaskOutcome.err "503 UNAVAILABLE"

/-- Transport stub: another always-transient failure message. -/
def transportBusy : Nat → Tui.TaskOutcome := fun _ =>
  Tui.TaskOutcome.err "503 Resource exhausted"

/-- The default model names of `tui.py`'s `AppSettings`. -/
def exSettings : Tui.AppSettings :=
  ⟨"gemini-2.5-flash", "gemini-flash-lite-latest", "gemini-2.0-flash-lite-preview-02-05"⟩

/-- A session already bound to the heavy worker. -/
def exBoundState : Tui.TuiState :=
  ⟨some ⟨Tui.Tier.heavy, "gemini-2.5-flash"⟩, some "gemini-2.5-flash"⟩

/-- The default model names of `app.py`'s `AppSettings`. -/
def exAppSettings : AppPy.AppSettings := ⟨"gemini-2-pro-preview", "gemini-2.5-flash"⟩

/-- The default model names of `main.py`'s `AppSettings`. -/
def exMainSettings : MainPy.AppSettings := ⟨"gemini-2.5-flash", "gemini-2.5-flash"⟩

/-- A 50-character prompt: strictly under 100 characters. -/
def fiftyCharPrompt : String := "aaaaaaaaaaaaaaaaaaaaaaaaaaaaaaaaaaaaaaaaaaaaaaaaaa"

/-- A 150-character prompt. -/
def hundredFiftyCharPrompt : String :=
  "xxxxxxxxxxxxxxxxxxxxxxxxxxxxxxxxxxxxxxxxxxxxxxxxxxxxxxxxxxxxxxxxxxxxxxxxxxxxxxxxxxxxxxxxxxxxxxxxxxxxxxxxxxxxxxxxxxxxxxxxxxxxxxxxxxxxxxxxxxxxxxxxxxxx"

/-! ## Helper lemmas about the retry loop -/

theorem range_succ_map_head {α : Type} (f : Nat → α) (j : Nat) :
    (List.range (j + 1)).map f = f 0 :: (List.range j).map (fun i => f (i + 1)) := by
  rw [List.range_succ_eq_map, List.map_cons, List.map_map]
  rfl

theorem range_map_exp_shift (c a j : Nat) :
    (List.range (j + 1)).map (fun i => c * 2 ^ (a + i)) =
      c * 2 ^ a :: (List.range j).map (fun i => c * 2 ^ (a + 1 + i)) := by
  simp only [range_succ_map_head, Nat.add_zero]
  have h2 : (fun i : Nat => c * 2 ^ (a + (i + 1))) = fun i : Nat => c * 2 ^ (a + 1 + i) := by
    funext i
    have h3 : a + (i + 1) = a + 1 + i := by omega
    rw [h3]
  rw [h2]

theorem range_map_note_shift (c a j : Nat) :
    (List.range (j + 1)).map (fun i => ((a + i : Nat), c * 2 ^ (a + i))) =
      (a, c * 2 ^ a) :: (List.range j).map (fun i => ((a + 1 + i : Nat), c * 2 ^ (a + 1 + i))) := by
  simp only [range_succ_map_head, Nat.add_zero]
  have h2 : (fun i : Nat => ((a + (i + 1) : Nat), c * 2 ^ (a + (i + 1)))) =
      fun i : Nat => ((a + 1 + i : Nat), c * 2 ^ (a + 1 + i)) := by
    funext i
    have h3 : a + (i + 1) = a + 1 + i := by omega
    rw [h3]
  rw [h2]

namespace Tui

/-- Running the loop from attempt `a` when the next `j` attempts are
transient failures and attempt `a + j` succeeds, all within the budget:
the trace records `j + 1` attempts, the exponential waits, and one
progress note per retried attempt. -/
theorem retryStep_transient_prefix (transport : Nat → TaskOutcome)
    (max_retries base_delay : Nat) (t : String) :
    ∀ j a, a + j < max_retries →
      (∀ i, i < j → isTransientOutcome (transport (a + i)) = true) →
      transport (a + j) = TaskOutcome.ok t →
      retryStep transport max_retries base_delay a (max_retries - a) =
        ⟨RetryResult.success t, j + 1,
          (List.range j).map (fun i => base_delay * 2 ^ (a + i)),
          (List.range j).map (fun i => ((a + i : Nat), base_delay * 2 ^ (a + i)))⟩ := by
  intro j
  induction j with
  | zero =>
    intro a hlt _ hok
    obtain ⟨f, hf⟩ : ∃ f, max_retries - a = f + 1 := ⟨max_retries - a - 1, by omega⟩
    rw [Nat.add_zero] at hok
    rw [hf]
    simp [retryStep, hok]
  | succ j ih =>
    intro a hlt hfail hok
    obtain ⟨f, hf⟩ : ∃ f, max_retries - a = f + 1 := ⟨max_retries - a - 1, by omega⟩
    have h0 := hfail 0 j.succ_pos
    rw [Nat.add_zero] at h0
    cases he : transport a with
    | ok t2 => rw [he] at h0; simp [isTransientOutcome] at h0
    | err m =>
      rw [he] at h0
      simp only [isTransientOutcome] at h0
      have hcond : strContains m "503" = true ∧ a < max_retries - 1 := ⟨h0, by omega⟩
      have hrec := ih (a + 1) (by omega)
        (fun i hi => by
          have := hfail (i + 1) (by omega)
          rwa [show a + (i + 1) = a + 1 + i by omega] at this)
        (by rwa [show a + 1 + j = a + (j + 1) by omega])
      rw [hf]
      simp only [retryStep, he]
      rw [if_pos hcond]
      rw [show f = max_retries - (a + 1) by omega, hrec]
      rw [range_map_exp_shift, range_map_note_shift]

/-- Running the loop from attempt `a` when every attempt is a transient
failure: the whole remaining budget is used and the last error is
re-raised. -/
theorem retryStep_all_transient (transport : Nat → TaskOutcome)
    (max_retries base_delay : Nat) (msg : Nat → String)
    (herr : ∀ i, transport i = TaskOutcome.err (msg i))
    (htr : ∀ i, strContains (msg i) "503" = true) :
    ∀ fuel a, a + fuel = max_retries → 1 ≤ fuel →
      retryStep transport max_retries base_delay a fuel =
        ⟨RetryResult.raised (msg (max_retries - 1)), fuel,
          (List.range (fuel - 1)).map (fun i => base_delay * 2 ^ (a + i)),
          (List.range (fuel - 1)).map (fun i => ((a + i : Nat), base_delay * 2 ^ (a + i)))⟩ := by
  intro fuel
  induction fuel with
  | zero => intro a _ hge; omega
  | succ f ih =>
    intro a hsum _
    simp only [retryStep, herr a]
    by_cases hf0 : f = 0
    · subst hf0
      have hneg : ¬(strContains (msg a) "503" = true ∧ a < max_retries - 1) := by
        rintro ⟨-, h⟩
        omega
      rw [if_neg hneg]
      have ha : a = max_retries - 1 := by omega
      rw [ha]
      simp
    · have hcond : strContains (msg a) "503" = true ∧ a < max_retries - 1 :=
        ⟨htr a, by omega⟩
      rw [if_pos hcond]
      have hrec := ih (a + 1) (by omega) (by omega)
      rw [hrec]
      obtain ⟨g, rfl⟩ : ∃ g, f = g + 1 := ⟨f - 1, by omega⟩
      simp only [Nat.add_sub_cancel]
      rw [range_map_exp_shift, range_map_note_shift]

end Tui

/-! ## Claims C2, C3, C4 — the retry executor -/

/-- C2: if the transport fails TRANSIENT exactly `k` times (`k` below the
budget) and then succeeds, the retry loop of `process_user_request`
returns the success text after exactly `k + 1` transport attempts, sleeps
`base_delay * 2 ^ 0, …, base_delay * 2 ^ (k - 1)` in that order between
attempts (the code's multiplier is 2), and writes exactly one progress
note per retried attempt — none when the first attempt succeeds
(`k = 0` gives empty lists). -/
theorem C2_retry_transient_then_success (transport : Nat → Tui.TaskOutcome)
    (max_retries base_delay k : Nat) (t : String)
    (hk : k < max_retries)
    (hfail : ∀ i, i < k → Tui.isTransientOutcome (transport i) = true)
    (hsucc : transport k = Tui.TaskOutcome.ok t) :
    Tui.retryExec transport max_retries base_delay =
      ⟨Tui.RetryResult.success t, k + 1,
        (List.range k).map (fun i => base_delay * 2 ^ i),
        (List.range k).map (fun i => ((i : Nat), base_delay * 2 ^ i))⟩ := by
  have h := Tui.retryStep_transient_prefix transport max_retries base_delay t k 0
    (by omega) (fun i hi => by simpa using hfail i hi) (by simpa using hsucc)
  rw [Nat.sub_zero] at h
  simpa [Tui.retryExec, Nat.zero_add] using h

/-- Witness for C2: `k = 2` transient failures then "OK" under the code's
policy (`max_retries = 5`, `base_delay = 1`) gives "OK" after 3 attempts,
delays `[1, 2]`, and one note per retried attempt. -/
theorem C2_witness :
    Tui.retryExec transportTwoFail 5 1 =
      ⟨Tui.RetryResult.success "OK", 3, [1, 2], [(0, 1), (1, 2)]⟩ := by
  have h := C2_retry_transient_then_success transportTwoFail 5 1 2 "OK"
    (by decide) (by decide) (by decide)
  rw [h]
  decide

/-- C3: a FATAL (non-503) error on the very first attempt is re-raised at
once: one transport attempt, no sleeps, no progress notes, whatever the
remaining budget `max_retries ≥ 1`. -/
theorem C3_fatal_first_attempt (transport : Nat → Tui.TaskOutcome)
    (max_retries base_delay : Nat) (m : String)
    (hmr : 1 ≤ max_retries)
    (hfirst : transport 0 = Tui.TaskOutcome.err m)
    (hfatal : strContains m "503" = false) :
    Tui.retryExec transport max_retries base_delay =
      ⟨Tui.RetryResult.raised m, 1, [], []⟩ := by
  obtain ⟨f, rfl⟩ : ∃ f, max_retries = f + 1 := ⟨max_retries - 1, by omega⟩
  have hneg : ¬(strContains m "503" = true ∧ 0 < f + 1 - 1) := by
    rintro ⟨h, -⟩
    rw [hfatal] at h
    exact Bool.false_ne_true h
  simp only [Tui.retryExec, Tui.retryStep, hfirst]
  rw [if_neg hneg]

/-- Witness for C3: a 401 error on attempt 1 with a budget of 7 attempts
fails immediately after one attempt with zero delay. -/
theorem C3_witness :
    Tui.retryExec transportFatal 7 2 =
      ⟨Tui.RetryResult.raised "401 Unauthorized", 1, [], []⟩ :=
  C3_fatal_first_attempt transportFatal 7 2 "401 Unauthorized"
    (by decide) (by decide) (by decide)

/-- C4 counterexample: with an always-transient transport and the code's
policy (`max_retries = 5`, `base_delay = 1`), the loop makes 5 attempts
and then fails by re-raising the transport's own error message
`"503 UNAVAILABLE"` unchanged (`raise e` in `tui.py` line 226).  The
failure is the last transient error propagated as-is — there is no
distinguished RetryExhausted cause anywhere in the code, contrary to the
claim. -/
theorem C4_counterexample :
    Tui.retryExec transportOverloaded 5 1 =
      ⟨Tui.RetryResult.raised "503 UNAVAILABLE", 5, [1, 2, 4, 8],
        [(0, 1), (1, 2), (2, 4), (3, 8)]⟩ := by decide

/-- C4 amended: if the transport fails TRANSIENT on every attempt, the
retry loop makes exactly `max_retries` attempts and then fails by
re-raising the last transient error as-is (no distinguished
RetryExhausted cause exists in the code). -/
theorem C4_amended_retry_exhaustion (transport : Nat → Tui.TaskOutcome)
    (max_retries base_delay : Nat) (msg : Nat → String)
    (hmr : 1 ≤ max_retries)
    (herr : ∀ i, transport i = Tui.TaskOutcome.err (msg i))
    (htr : ∀ i, strContains (msg i) "503" = true) :
    Tui.retryExec transport max_retries base_delay =
      ⟨Tui.RetryResult.raised (msg (max_retries - 1)), max_retries,
        (List.range (max_retries - 1)).map (fun i => base_delay * 2 ^ i),
        (List.range (max_retries - 1)).map (fun i => ((i : Nat), base_delay * 2 ^ i))⟩ := by
  have h := Tui.retryStep_all_transient transport max_retries base_delay msg herr htr
    max_retries 0 (by omega) hmr
  simpa [Tui.retryExec, Nat.zero_add] using h

/-- Witness for the amended C4: with budget 4 and base delay 3, four
attempts are made, the delays are `[3, 6, 12]`, and the executor fails by
re-raising the last `"503 Resource exhausted"` error. -/
theorem C4_witness :
    Tui.retryExec transportBusy 4 3 =
      ⟨Tui.RetryResult.raised "503 Resource exhausted", 4, [3, 6, 12],
        [(0, 3), (1, 6), (2, 12)]⟩ := by
  have h := C4_amended_retry_exhaustion transportBusy 4 3
    (fun _ => "503 Resource exhausted") (by decide) (fun _ => rfl) (fun _ => rfl)
  rw [h]
  decide

/-! ## Claim C1 — sticky routing and reset -/

/-- C1: handling a prompt invokes the Classifier (`route_logic`) iff the
session is unbound; a bound session's request reuses the stored worker
and model name and leaves the state unchanged, without invoking the
Classifier; after `action_new_session` the state is unbound, so the next
prompt re-invokes the Classifier and stores the fresh binding it
produces. -/
theorem C1_sticky_routing (settings : Tui.AppSettings) (pickerResponse : Option String)
    (transport : Nat → Tui.TaskOutcome) (st : Tui.TuiState) (prompt : String) :
    ((Tui.process_user_request settings pickerResponse transport st prompt).classifierInvoked = true
        ↔ st.current_worker = none)
    ∧ (∀ w, st.current_worker = some w →
        (Tui.process_user_request settings pickerResponse transport st prompt).usedWorker = some w
        ∧ (Tui.process_user_request settings pickerResponse transport st prompt).usedModel
            = st.current_model_name
        ∧ (Tui.process_user_request settings pickerResponse transport st prompt).state = st)
    ∧ ((Tui.action_new_session st).1.current_worker = none
        ∧ (Tui.process_user_request settings pickerResponse transport
              (Tui.action_new_session st).1 prompt).classifierInvoked = true
        ∧ (Tui.process_user_request settings pickerResponse transport
              (Tui.action_new_session st).1 prompt).state.current_worker
            = some (Tui.route_logic settings pickerResponse).1) := by
  refine ⟨?_, ?_, ?_, ?_, ?_⟩
  · cases hcw : st.current_worker <;> simp [Tui.process_user_request, hcw]
  · intro w hw
    simp [Tui.process_user_request, hw]
  · rfl
  · simp [Tui.process_user_request, Tui.action_new_session]
  · simp [Tui.process_user_request, Tui.action_new_session]

/-- Witness for C1: a session bound to the heavy worker reuses it and is
left unchanged. -/
theorem C1_witness :
    (Tui.process_user_request exSettings (some "LIGHT") transportTwoFail exBoundState
        "hello").usedWorker = some ⟨Tui.Tier.heavy, "gemini-2.5-flash"⟩
    ∧ (Tui.process_user_request exSettings (some "LIGHT") transportTwoFail exBoundState
        "hello").state = exBoundState :=
  ⟨((C1_sticky_routing exSettings (some "LIGHT") transportTwoFail exBoundState "hello").2.1
      ⟨Tui.Tier.heavy, "gemini-2.5-flash"⟩ rfl).1,
   ((C1_sticky_routing exSettings (some "LIGHT") transportTwoFail exBoundState "hello").2.1
      ⟨Tui.Tier.heavy, "gemini-2.5-flash"⟩ rfl).2.2⟩

/-! ## Claims C5, C6 — the delegated classifier -/

/-- C5 counterexample: the claim's rule (first of the tokens HEAVY/LIGHT
matched case-insensitively, HEAVY when neither occurs) disagrees with the
code at concrete responses.  On "unsure" (neither token) the code routes
LIGHT while the claim demands HEAVY; on "light but maybe heavy" (LIGHT
occurs first) the code routes HEAVY while the claim demands LIGHT: the
code tests only `"HEAVY" in decision` (`tui.py` line 90). -/
theorem C5_counterexample :
    (Tui.route_logic exSettings (some "unsure")).1.tier = Tui.Tier.light
    ∧ specFirstTokenTier "unsure" = Tui.Tier.heavy
    ∧ (Tui.route_logic exSettings (some "light but maybe heavy")).1.tier = Tui.Tier.heavy
    ∧ specFirstTokenTier "light but maybe heavy" = Tui.Tier.light := by decide

/-- C5 amended: the tier is HEAVY iff the token "HEAVY" occurs
case-insensitively anywhere in the stripped response, and LIGHT whenever
it does not — in particular a response containing neither token yields
LIGHT, and the position of "LIGHT" in the response is irrelevant. -/
theorem C5_amended_contains_heavy (settings : Tui.AppSettings) (resp : String) :
    ((Tui.route_logic settings (some resp)).1.tier = Tui.Tier.heavy
        ↔ strContains (pyUpper (pyStrip resp)) "HEAVY" = true)
    ∧ ((Tui.route_logic settings (some resp)).1.tier = Tui.Tier.light
        ↔ strContains (pyUpper (pyStrip resp)) "HEAVY" = false) := by
  cases h : strContains (pyUpper (pyStrip resp)) "HEAVY" <;>
    simp [Tui.route_logic, Tui.routeDecision, h]

/-- Witness for the amended C5: " Heavy lifting " contains "HEAVY"
case-insensitively, so it routes to the heavy tier. -/
theorem C5_witness :
    (Tui.route_logic exSettings (some " Heavy lifting ")).1.tier = Tui.Tier.heavy :=
  (C5_amended_contains_heavy exSettings " Heavy lifting ").1.mpr (by decide)

/-- C6: when the auxiliary classification call raises (modelled by
`pickerResponse = none`), `route_logic` returns normally — it is a total
function in this embedding, mirroring the `except` that swallows every
exception — with the HEAVY worker and the heavy model name (the fallback
`decision = "HEAVY"`). -/
theorem C6_fallback_on_error (settings : Tui.AppSettings) :
    Tui.route_logic settings none =
      ({ tier := Tui.Tier.heavy, model_name := settings.heavy_model },
        settings.heavy_model) := rfl

/-- Witness for C6 at the default settings. -/
theorem C6_witness :
    Tui.route_logic exSettings none =
      ({ tier := Tui.Tier.heavy, model_name := "gemini-2.5-flash" }, "gemini-2.5-flash") := by
  rw [C6_fallback_on_error exSettings]
  rfl

/-! ## Claim C7 — failure leaves the binding intact -/

/-- C7: when the retry loop ends in a raised error (fatal error or
exhausted budget), the bound session's state is unchanged — `tui.py`'s
`except`/`finally` blocks never touch `current_worker` or
`current_model_name` — the Classifier was not invoked, the bound worker
handled the prompt, and the next prompt on the resulting state again
skips the Classifier and reuses the same worker. -/
theorem C7_failure_preserves_binding (settings : Tui.AppSettings)
    (picker picker2 : Option String) (transport transport2 : Nat → Tui.TaskOutcome)
    (st : Tui.TuiState) (prompt prompt2 : String) (w : Tui.Worker) (m : String)
    (hbound : st.current_worker = some w)
    (_hfail : (Tui.retryExec transport 5 1).result = Tui.RetryResult.raised m) :
    (Tui.process_user_request settings picker transport st prompt).state = st
    ∧ (Tui.process_user_request settings picker transport st prompt).classifierInvoked = false
    ∧ (Tui.process_user_request settings picker transport st prompt).usedWorker = some w
    ∧ (Tui.process_user_request settings picker2 transport2
          (Tui.process_user_request settings picker transport st prompt).state
          prompt2).classifierInvoked = false
    ∧ (Tui.process_user_request settings picker2 transport2
          (Tui.process_user_request settings picker transport st prompt).state
          prompt2).usedWorker = some w := by
  simp [Tui.process_user_request, hbound]

/-- Witness for C7: a fatal 401 failure on the bound session leaves the
binding as it was and the next prompt reuses it. -/
theorem C7_witness :
    (Tui.process_user_request exSettings (some "LIGHT") transportFatal exBoundState
        "a").state = exBoundState
    ∧ (Tui.process_user_request exSettings (some "LIGHT") transportFatal exBoundState
        "a").classifierInvoked = false
    ∧ (Tui.process_user_request exSettings (some "LIGHT") transportFatal exBoundState
        "a").usedWorker = some ⟨Tui.Tier.heavy, "gemini-2.5-flash"⟩
    ∧ (Tui.process_user_request exSettings none transportTwoFail
          (Tui.process_user_request exSettings (some "LIGHT") transportFatal exBoundState
            "a").state "b").classifierInvoked = false
    ∧ (Tui.process_user_request exSettings none transportTwoFail
          (Tui.process_user_request exSettings (some "LIGHT") transportFatal exBoundState
            "a").state "b").usedWorker = some ⟨Tui.Tier.heavy, "gemini-2.5-flash"⟩ :=
  C7_failure_preserves_binding exSettings (some "LIGHT") none transportFatal transportTwoFail
    exBoundState "a" "b" ⟨Tui.Tier.heavy, "gemini-2.5-flash"⟩ "401 Unauthorized"
    rfl (by decide)

/-! ## Claim C8 — the heuristic classifiers -/

/-- C8 counterexample: the repository has two heuristic `route_logic`
functions and they disagree with the claim's single threshold.  The
50-character prompt is strictly under 100 characters, yet `main.py`'s
heuristic (`len > 20`) routes it to the HEAVY/reasoning worker, where the
claim demands LIGHT. -/
theorem C8_counterexample :
    fiftyCharPrompt.length = 50
    ∧ (MainPy.route_logic exMainSettings fiftyCharPrompt).1.tier = Tui.Tier.heavy := by decide

/-- C8 amended: each heuristic is a pure function of the prompt text
(determinism is by construction — both are Lean functions of the text and
settings alone).  `app.py`'s threshold is 100: length < 100 iff LIGHT;
`main.py`'s threshold is 20: length > 20 iff HEAVY.  Thus "hi" routes
LIGHT and a 150-character prompt routes HEAVY under both, but lengths
21–99 route LIGHT under `app.py` and HEAVY under `main.py`. -/
theorem C8_amended_thresholds (s : String) (stA : AppPy.AppSettings)
    (stM : MainPy.AppSettings) :
    ((AppPy.route_logic s stA).1.tier = Tui.Tier.light ↔ s.length < 100)
    ∧ ((AppPy.route_logic s stA).1.tier = Tui.Tier.heavy ↔ 100 ≤ s.length)
    ∧ ((MainPy.route_logic stM s).1.tier = Tui.Tier.heavy ↔ 20 < s.length)
    ∧ ((MainPy.route_logic stM s).1.tier = Tui.Tier.light ↔ s.length ≤ 20) := by
  by_cases hA : s.length < 100 <;> by_cases hM : 20 < s.length <;>
    simp [AppPy.route_logic, MainPy.route_logic, hA, hM] <;> omega

set_option maxRecDepth 4000 in
/-- Witness for the amended C8: "hi" routes LIGHT under both heuristics;
the 150-character prompt routes HEAVY under `app.py`'s heuristic. -/
theorem C8_witness :
    (AppPy.route_logic "hi" exAppSettings).1.tier = Tui.Tier.light
    ∧ (AppPy.route_logic hundredFiftyCharPrompt exAppSettings).1.tier = Tui.Tier.heavy
    ∧ (MainPy.route_logic exMainSettings "hi").1.tier = Tui.Tier.light :=
  ⟨(C8_amended_thresholds "hi" exAppSettings exMainSettings).1.mpr (by decide),
   (C8_amended_thresholds hundredFiftyCharPrompt exAppSettings exMainSettings).2.1.mpr
     (by decide),
   (C8_amended_thresholds "hi" exAppSettings exMainSettings).2.2.2.mpr (by decide)⟩

/-! ## Claim C10 — blank input is a no-op -/

/-- C10: submitting a value that strips to the empty string is a no-op at
the public interface: `on_input_submitted` returns before doing anything,
so no routing happens, no transport attempt is made, no log events are
emitted, and the session's binding is exactly as before. -/
theorem C10_blank_input_noop (settings : Tui.AppSettings) (picker : Option String)
    (transport : Nat → Tui.TaskOutcome) (st : Tui.TuiState) (value : String)
    (hblank : pyStrip value = "") :
    Tui.on_input_submitted settings picker transport st value =
      { state := st, events := [], classifierInvoked := false,
        usedWorker := none, usedModel := none, attempts := 0 } := by
  simp [Tui.on_input_submitted, hblank]

/-- Witness for C10: a whitespace-only value on a bound session changes
nothing and emits nothing. -/
theorem C10_witness :
    Tui.on_input_submitted exSettings (some "HEAVY") transportTwoFail exBoundState " \t  " =
      { state := exBoundState, events := [], classifierInvoked := false,
        usedWorker := none, usedModel := none, attempts := 0 } :=
  C10_blank_input_noop exSettings (some "HEAVY") transportTwoFail exBoundState " \t  "
    (by decide)
